import Mathlib

/-!
# Si7021 driver: embedding of `src/src/si7021.c` and `src/include/si7021.h`

Bytes and machine integers are natural numbers, reduced modulo `2^w` where the C
code stores them into a `w`-bit object.  The I2C transport of the Pico SDK is an
external collaborator: it is a parameter (`Transport`) whose answers may depend on
the whole history of bus calls, and every driver function threads that history
(`Trace`) so that the calls it issues can be observed.  A local variable that the C
code leaves uninitialised is an extra argument of the function, named after it: its
value on entry is indeterminate.
-/

set_option maxRecDepth 8000

namespace Si7021

/-! ## Constants of `si7021.h` and `si7021.c` -/

def SI7021_ADDR : Nat := 0x40

def SI7021_MEASURE_TEMP_HOLD : Nat := 0xE3
def SI7021_MEASURE_HUM_HOLD : Nat := 0xE5
def SI7021_MEASURE_TEMP_NO_HOLD : Nat := 0xF3
def SI7021_MEASURE_HUM_NO_HOLD : Nat := 0xF5
def SI7021_READ_TEMP_PREV : Nat := 0xE0
def SI7021_RESET : Nat := 0xFE
def SI7021_READ_USER_REG : Nat := 0xE7
def SI7021_WRITE_USER_REG : Nat := 0xE6
def SI7021_READ_HEATER_REG : Nat := 0x11
def SI7021_WRITE_HEATER_REG : Nat := 0x51

/-! ## Types of `si7021.h` -/

inductive si7021_error_t where
  | SI7021_OK
  | SI7021_ERR_NO_I2C
  | SI7021_ERR_NO_RESPONSE
  | SI7021_ERR_INVALID_HEATER_LEVEL
  | SI7021_ERR_WRITE_FAIL
  | SI7021_ERR_READ_FAIL
  | SI7021_ERR_CRC_FAIL
  deriving DecidableEq, Repr

open si7021_error_t

/-- The I2C controller instances of the board (`i2c0`, `i2c1` of the Pico SDK). -/
inductive i2c_inst_t where
  | i2c0
  | i2c1
  deriving DecidableEq, Repr

/-- The sensor handle `si7021_t`: `i2c` is a pointer, `none` standing for `NULL`. -/
structure si7021_t where
  i2c : Option i2c_inst_t
  hold_master : Bool
  deriving DecidableEq, Repr

/-- The struct `si7021_reading_t`.  A field holds the exact value of the C expression
assigned to it; the stored `float` is that value rounded to single precision. -/
structure si7021_reading_t where
  temperature : ℚ
  humidity : ℚ
  deriving DecidableEq

/-! ## The transport -/

/-- One call of the SDK's blocking I2C interface, with the arguments the driver passed:
the controller pointer, the 7-bit address, the bytes handed over (for a write), the
length argument and the `nostop` flag. -/
inductive BusCall where
  | write (i2c : Option i2c_inst_t) (addr : Nat) (src : List Nat) (len : Nat) (nostop : Bool)
  | read (i2c : Option i2c_inst_t) (addr : Nat) (len : Nat) (nostop : Bool)
  deriving DecidableEq, Repr

abbrev Trace := List BusCall

/-- The behaviour of the bus.  Both functions receive the history of calls up to and
including the one being answered: `write` gives the return value of
`i2c_write_blocking`, `read` the return value of `i2c_read_blocking` together with
the bytes it delivered into the destination. -/
structure Transport where
  write : Trace → Int
  read : Trace → Int × List Nat

/-- A local `uint8_t` array: `size` is its declared length, `cells` the bytes lying
from its first cell on (a cell at index `size` or beyond lies past the array). -/
structure buffer where
  size : Nat
  cells : List Nat
  deriving DecidableEq, Repr

/-- The cell `b[i]`. -/
def buffer.cell (b : buffer) (i : Nat) : Nat := b.cells.getD i 0

/-- The transport stores the first `len` delivered bytes from the first cell on. -/
def buffer.fill (b : buffer) (data : List Nat) (len : Nat) : buffer :=
  { size := b.size
    cells := (data.take len).map (fun x => x % 256) ++ b.cells.drop (min len data.length) }

/-- The call `i2c_write_blocking(i2c, addr, src, len, nostop)`. -/
def i2c_write_blocking (T : Transport) (tr : Trace) (i2c : Option i2c_inst_t) (addr : Nat)
    (src : List Nat) (len : Nat) (nostop : Bool) : Int × Trace :=
  let tr1 := tr ++ [BusCall.write i2c addr src len nostop]
  (T.write tr1, tr1)

/-- The call `i2c_read_blocking(i2c, addr, dst, len, nostop)`. -/
def i2c_read_blocking (T : Transport) (tr : Trace) (i2c : Option i2c_inst_t) (addr : Nat)
    (dst : buffer) (len : Nat) (nostop : Bool) : Int × buffer × Trace :=
  let tr1 := tr ++ [BusCall.read i2c addr len nostop]
  ((T.read tr1).1, dst.fill (T.read tr1).2 len, tr1)

/-! ## Checksum -/

/-- The constant `poly = 0b100110001` of `verify_crc`. -/
def poly : Nat := 0b100110001

/-- One turn of the inner loop of `verify_crc`; the result is stored into a `uint8_t`. -/
def crc_step (crc : Nat) : Nat :=
  if crc &&& 0x80 ≠ 0 then ((crc <<< 1) ^^^ poly) % 256 else (crc <<< 1) % 256

/-- The body of the outer loop: `crc ^= data[i]`, then eight turns of the inner loop. -/
def crc_byte (crc : Nat) (d : Nat) : Nat :=
  crc_step^[8] ((crc ^^^ d) % 256)

/-- The register `crc` of `verify_crc` when its loops end (lines 25-39). -/
def crc_register (data : List Nat) (len : Nat) : Nat :=
  (List.range len).foldl (fun crc i => crc_byte crc (data.getD i 0)) 0x00

/-- The value of the C assignment expression `lhs = rhs` for a `uint8_t` object `lhs`:
the value stored, whatever the object held before. -/
def assign_u8 (_lhs rhs : Nat) : Nat := rhs % 256

/-- The function `verify_crc`.  Its last statement is `return crc = received_crc;`: an
assignment, whose value is converted to `bool` (nonzero is `true`). -/
def verify_crc (data : List Nat) (received_crc : Nat) (len : Nat) : Bool :=
  let crc := crc_register data len
  assign_u8 crc received_crc != 0

/-! ## Transactions -/

/-- What a driver function leaves behind: its return value, the object behind its
output pointer (or the value the caller already had there), and the bus history. -/
structure Ret (α : Type) where
  err : si7021_error_t
  out : α
  trace : Trace

/-- The function `write_then_read`.  `result` is the caller's `*result` on entry.
`read_buffer` is declared with two cells while three bytes are requested from the bus
and the cell of index 2 is read: the third delivered byte lies in the cell just past the
array, which is where the code looks for the checksum. -/
def write_then_read (T : Transport) (tr : Trace) (sensor : si7021_t) (command : Nat)
    (result : Nat) : Ret Nat :=
  let read_buffer : buffer := { size := 2, cells := [0, 0] }
  let w := i2c_write_blocking T tr sensor.i2c SI7021_ADDR [command] 1 false
  if w.1 ≠ 1 then { err := SI7021_ERR_WRITE_FAIL, out := result, trace := w.2 } else
  let r := i2c_read_blocking T w.2 sensor.i2c SI7021_ADDR read_buffer 3 false
  let read_buffer := r.2.1
  if r.1 ≠ 3 then { err := SI7021_ERR_READ_FAIL, out := result, trace := r.2.2 } else
  if !verify_crc read_buffer.cells (read_buffer.cell 2) 2 then
    { err := SI7021_ERR_CRC_FAIL, out := result, trace := r.2.2 }
  else
    { err := SI7021_OK
      out := ((read_buffer.cell 0 <<< 8) ||| read_buffer.cell 1) % 65536
      trace := r.2.2 }

/-- The function `read_temperature`.  `temp_code` is the indeterminate initial value of
the local of that name.  The constants `175.72` and `46.85` are the decimals written. -/
def read_temperature (T : Transport) (tr : Trace) (sensor : si7021_t)
    (reading : si7021_reading_t) (temp_code : Nat) : Ret si7021_reading_t :=
  let _command :=
    if sensor.hold_master then SI7021_MEASURE_TEMP_HOLD else SI7021_MEASURE_TEMP_NO_HOLD
  let c := write_then_read T tr sensor SI7021_MEASURE_TEMP_HOLD temp_code
  if c.err ≠ SI7021_OK then { err := c.err, out := reading, trace := c.trace } else
  { err := SI7021_OK
    out := { reading with temperature := (17572 / 100 : ℚ) * (c.out : ℚ) / 65536 - 4685 / 100 }
    trace := c.trace }

/-- The function `read_humidity`.  The expression `(125 * hum_code / 65536) - 6` has
integer operands only, so it is evaluated in `int` and converted afterwards. -/
def read_humidity (T : Transport) (tr : Trace) (sensor : si7021_t)
    (reading : si7021_reading_t) (hum_code : Nat) : Ret si7021_reading_t :=
  let command :=
    if sensor.hold_master then SI7021_MEASURE_HUM_HOLD else SI7021_MEASURE_HUM_NO_HOLD
  let c := write_then_read T tr sensor command hum_code
  if c.err ≠ SI7021_OK then { err := c.err, out := reading, trace := c.trace } else
  { err := SI7021_OK
    out := { reading with humidity := ((Int.tdiv (125 * (c.out : Int)) 65536 - 6 : Int) : ℚ) }
    trace := c.trace }

/-- The function `read_temperature_humidity`. -/
def read_temperature_humidity (T : Transport) (tr : Trace) (sensor : si7021_t)
    (reading : si7021_reading_t) (hum_code temp_code : Nat) : Ret si7021_reading_t :=
  let h := read_humidity T tr sensor reading hum_code
  if h.err ≠ SI7021_OK then { err := h.err, out := h.out, trace := h.trace } else
  let c := write_then_read T h.trace sensor SI7021_MEASURE_TEMP_HOLD temp_code
  if c.err ≠ SI7021_OK then { err := c.err, out := h.out, trace := c.trace } else
  { err := SI7021_OK
    out := { h.out with temperature := (17572 / 100 : ℚ) * (c.out : ℚ) / 65536 - 4685 / 100 }
    trace := c.trace }

/-! ## Registers and heater -/

/-- The function `read_user_register`.  `user_reg` is the caller's `*user_reg` on entry. -/
def read_user_register (T : Transport) (tr : Trace) (sensor : si7021_t) (user_reg : Nat) :
    Ret Nat :=
  let write_buffer : List Nat := [SI7021_READ_USER_REG]
  let w := i2c_write_blocking T tr sensor.i2c SI7021_ADDR write_buffer 1 true
  if w.1 ≠ 1 then { err := SI7021_ERR_WRITE_FAIL, out := user_reg, trace := w.2 } else
  let read_buffer : buffer := { size := 1, cells := [0] }
  let r := i2c_read_blocking T w.2 sensor.i2c SI7021_ADDR read_buffer 1 false
  let read_buffer := r.2.1
  if r.1 ≠ 1 then { err := SI7021_ERR_READ_FAIL, out := user_reg, trace := r.2.2 } else
  { err := SI7021_OK, out := read_buffer.cell 0, trace := r.2.2 }

/-- The function `write_user_register`. -/
def write_user_register (T : Transport) (tr : Trace) (sensor : si7021_t) (user_reg : Nat) :
    Ret Unit :=
  let write_buffer : List Nat := [SI7021_WRITE_USER_REG, user_reg]
  let w := i2c_write_blocking T tr sensor.i2c SI7021_ADDR write_buffer 2 true
  if w.1 ≠ 2 then { err := SI7021_ERR_WRITE_FAIL, out := (), trace := w.2 } else
  { err := SI7021_OK, out := (), trace := w.2 }

/-- The function `si7021_enable_heater`.  `user_reg` is the indeterminate initial value
of the local of that name. -/
def si7021_enable_heater (T : Transport) (tr : Trace) (sensor : si7021_t) (user_reg : Nat) :
    Ret Unit :=
  let rd := read_user_register T tr sensor user_reg
  let user_reg := rd.out
  let updated_reg := (user_reg ||| (1 <<< 2)) % 256
  let wr := write_user_register T rd.trace sensor updated_reg
  if wr.err ≠ SI7021_OK then { err := wr.err, out := (), trace := wr.trace } else
  { err := SI7021_OK, out := (), trace := wr.trace }

/-- The function `si7021_disable_heater`.  The operand `~(1 << 2)` is a 32-bit `int`, the
bit pattern `2^32 - 1 - (1 << 2)`; the conjunction is stored back into the `uint8_t`
local. -/
def si7021_disable_heater (T : Transport) (tr : Trace) (sensor : si7021_t) (user_reg : Nat) :
    Ret Unit :=
  let rd := read_user_register T tr sensor user_reg
  let user_reg := rd.out
  let user_reg := (user_reg &&& (2 ^ 32 - 1 - (1 <<< 2))) % 256
  let wr := write_user_register T rd.trace sensor user_reg
  if wr.err ≠ SI7021_OK then { err := wr.err, out := (), trace := wr.trace } else
  { err := SI7021_OK, out := (), trace := wr.trace }

/-- The function `si7021_set_heater_level`. -/
def si7021_set_heater_level (T : Transport) (tr : Trace) (sensor : si7021_t)
    (heater_level : Nat) : Ret Unit :=
  if heater_level > 15 then
    { err := SI7021_ERR_INVALID_HEATER_LEVEL, out := (), trace := tr }
  else
  let write_buffer : List Nat := [SI7021_WRITE_HEATER_REG, heater_level]
  let w := i2c_write_blocking T tr sensor.i2c SI7021_ADDR write_buffer 2 true
  if w.1 ≠ 2 then { err := SI7021_ERR_WRITE_FAIL, out := (), trace := w.2 } else
  { err := SI7021_OK, out := (), trace := w.2 }

/-! ## Serial number -/

/-- The struct `si7021_serial_num_t`: `serial_buffer` has eight cells. -/
structure si7021_serial_num_t where
  serial_buffer : List Nat
  deriving DecidableEq, Repr

/-- The function `si7021_get_serial_num`.  `serial_num` is the caller's struct on entry. -/
def si7021_get_serial_num (T : Transport) (tr : Trace) (sensor : si7021_t)
    (serial_num : si7021_serial_num_t) : Ret si7021_serial_num_t :=
  let first_command : List Nat := [0xFA, 0x0F]
  let second_command : List Nat := [0xFC, 0xC9]
  let w1 := i2c_write_blocking T tr sensor.i2c SI7021_ADDR first_command 2 false
  if w1.1 ≠ 2 then { err := SI7021_ERR_WRITE_FAIL, out := serial_num, trace := w1.2 } else
  let sna : buffer := { size := 8, cells := List.replicate 8 0 }
  let r1 := i2c_read_blocking T w1.2 sensor.i2c SI7021_ADDR sna 8 false
  let sna := r1.2.1
  if r1.1 ≠ 8 then { err := SI7021_ERR_READ_FAIL, out := serial_num, trace := r1.2.2 } else
  let serial_num : si7021_serial_num_t :=
    { serial_buffer :=
        (((serial_num.serial_buffer.set 0 (sna.cell 0)).set 1 (sna.cell 2)).set 2 (sna.cell 4)).set 3
          (sna.cell 6) }
  let valid_read := verify_crc serial_num.serial_buffer (sna.cell 7) 4
  if !valid_read then { err := SI7021_ERR_CRC_FAIL, out := serial_num, trace := r1.2.2 } else
  let w2 := i2c_write_blocking T r1.2.2 sensor.i2c SI7021_ADDR second_command 2 false
  if w2.1 ≠ 2 then { err := SI7021_ERR_WRITE_FAIL, out := serial_num, trace := w2.2 } else
  let snb : buffer := { size := 6, cells := List.replicate 6 0 }
  let r2 := i2c_read_blocking T w2.2 sensor.i2c SI7021_ADDR snb 6 false
  let snb := r2.2.1
  if r2.1 ≠ 6 then { err := SI7021_ERR_READ_FAIL, out := serial_num, trace := r2.2.2 } else
  let serial_num : si7021_serial_num_t :=
    { serial_buffer :=
        (((serial_num.serial_buffer.set 4 (snb.cell 0)).set 5 (snb.cell 1)).set 6 (snb.cell 3)).set 7
          (snb.cell 4) }
  let valid_read := verify_crc (serial_num.serial_buffer.drop 4) (snb.cell 5) 4
  if !valid_read then { err := SI7021_ERR_CRC_FAIL, out := serial_num, trace := r2.2.2 } else
  { err := SI7021_OK, out := serial_num, trace := r2.2.2 }

/-- The function `si7021_is_heater_enabled`.  `user_register` is the indeterminate
initial value of the local of that name; the return value of `read_user_register` is
stored in `err` and not looked at. -/
def si7021_is_heater_enabled (T : Transport) (tr : Trace) (sensor : si7021_t)
    (user_register : Nat) : Ret Bool :=
  let rd := read_user_register T tr sensor user_register
  let _err := rd.err
  let user_register := rd.out
  { err := SI7021_OK, out := (user_register &&& (1 <<< 2)) != 0, trace := rd.trace }

/-- The function `si7021_print_serial_num` writes through `sprintf(p, "%02X", v)`: the
value in uppercase hexadecimal, padded with zeros to two digits, and the terminating
null character (C standard, `fprintf` conversions). -/
def sprintf_02X (v : Nat) : List Char :=
  let digits := (Nat.toDigits 16 v).map Char.toUpper
  List.replicate (2 - digits.length) (Char.ofNat 48) ++ digits ++ [Char.ofNat 0]

/-- Storing the characters `cs` into the memory `mem` from offset `off` on. -/
def store_chars (mem : Nat → Char) (off : Nat) (cs : List Char) : Nat → Char :=
  fun k => if off ≤ k ∧ k < off + cs.length then cs.getD (k - off) (mem k) else mem k

/-- The function `si7021_print_serial_num`.  `buffer` is `none` for `NULL`, and
otherwise the memory from the pointer on; the second component is that memory when the
function returns. -/
def si7021_print_serial_num (serial_num : si7021_serial_num_t) (buffer : Option (Nat → Char)) :
    si7021_error_t × Option (Nat → Char) :=
  match buffer with
  | none => (SI7021_ERR_READ_FAIL, none)
  | some mem =>
    (SI7021_OK,
     some ((List.range 8).foldl
       (fun m i => store_chars m (i * 2) (sprintf_02X (serial_num.serial_buffer.getD i 0))) mem))

/-! ## Lifecycle -/

/-- The function `si7021_reset`. -/
def si7021_reset (T : Transport) (tr : Trace) (sensor : si7021_t) : Ret Unit :=
  let command : List Nat := [SI7021_RESET]
  let w := i2c_write_blocking T tr sensor.i2c SI7021_ADDR command 1 false
  if w.1 ≠ 1 then { err := SI7021_ERR_WRITE_FAIL, out := (), trace := w.2 } else
  { err := SI7021_OK, out := (), trace := w.2 }

/-- The function `si7021_init`.  The read is handed the SDK's global `i2c0`. -/
def si7021_init (T : Transport) (tr : Trace) (sensor : si7021_t) : Ret Unit :=
  if sensor.i2c = none then { err := SI7021_ERR_NO_I2C, out := (), trace := tr } else
  let read_buffer : buffer := { size := 1, cells := [0] }
  let r := i2c_read_blocking T tr (some i2c_inst_t.i2c0) SI7021_ADDR read_buffer 1 false
  if r.1 ≠ 1 then { err := SI7021_ERR_NO_RESPONSE, out := (), trace := r.2.2 } else
  { err := SI7021_OK, out := (), trace := r.2.2 }

/-! ## Array bounds -/

/-- Checked indexing of a local array: `none` is the out-of-range branch, taken when
the index is not below the declared length. -/
def buffer.index (b : buffer) (i : Nat) : Option Nat :=
  if i < b.size then some (b.cell i) else none

/-- The array `read_buffer` of `write_then_read` after the call of `i2c_read_blocking`
(lines 45 and 53), on a run that gets that far. -/
def write_then_read_buffer (T : Transport) (tr : Trace) (sensor : si7021_t) (command : Nat) :
    buffer :=
  let read_buffer : buffer := { size := 2, cells := [0, 0] }
  let w := i2c_write_blocking T tr sensor.i2c SI7021_ADDR [command] 1 false
  let r := i2c_read_blocking T w.2 sensor.i2c SI7021_ADDR read_buffer 3 false
  r.2.1

/-- Whether a transfer of `len` bytes into the array stays within its declared length. -/
def buffer.holds (b : buffer) (len : Nat) : Bool := decide (len ≤ b.size)

/-! ## Sample buses and observations -/

/-- Whether a call is a bus write. -/
def BusCall.is_write : BusCall → Bool
  | BusCall.write _ _ _ _ _ => true
  | BusCall.read _ _ _ _ => false

/-- A bus that follows a script: the `k`-th write of the history is answered with the
`k`-th entry of `ws`, the `k`-th read with the `k`-th entry of `rs`; once a script is
used up the bus transfers nothing. -/
def scripted_bus (ws : List Int) (rs : List (Int × List Nat)) : Transport :=
  { write := fun h => ws.getD (h.countP BusCall.is_write - 1) 0
    read := fun h => rs.getD (h.countP (fun c => !c.is_write) - 1) (0, []) }

/-- Whether a call is a bus write whose payload is the single byte `op`. -/
def BusCall.writes_opcode (op : Nat) : BusCall → Bool
  | BusCall.write _ _ src _ _ => src == [op]
  | BusCall.read _ _ _ _ => false

/-- The uppercase hexadecimal digits, in order of value. -/
def upper_hex_digits : List Char := "0123456789ABCDEF".toList

/-- The uppercase hexadecimal digit of the value `d`. -/
def upper_hex_digit (d : Nat) : Char := upper_hex_digits.getD d (Char.ofNat 48)

/-! ## Checksum validator -/

theorem verify_crc_eq (data : List Nat) (received_crc len : Nat) :
    verify_crc data received_crc len = (received_crc % 256 != 0) := rfl

/-- C1 (code defect): `verify_crc` does not compare the computed CRC with the received
byte.  The payload `[0x00]` has CRC `0x00`, yet `verify_crc` rejects the matching byte
`0x00`; the payload `[0x01]` has CRC `0x31`, yet `verify_crc` accepts the byte `0x01`. -/
theorem verify_crc_not_a_comparison :
    crc_register [0x00] 1 = 0x00 ∧ verify_crc [0x00] 0x00 1 = false ∧
    crc_register [0x01] 1 = 0x31 ∧ verify_crc [0x01] 0x01 1 = true := by
  decide

/-- C2 (code defect): single-bit errors pass `verify_crc`.  For the payload `[0x01]` with
checksum `0x31`, flipping bit 0 of the payload, or bit 0 of the checksum, still yields
`true`. -/
theorem verify_crc_misses_single_bit_flips :
    crc_register [0x01] 1 = 0x31 ∧
    verify_crc [0x01 ^^^ 0x01] 0x31 1 = true ∧
    verify_crc [0x01] (0x31 ^^^ 0x01) 1 = true := by
  decide

/-- C3 (code defect): a transaction returns `SI7021_OK` although the checksum byte does
not match.  The response `[0x12, 0x34, 0x01]` (the CRC of `[0x12, 0x34]` is not `0x01`)
is accepted by `write_then_read` with the code `0x1234`, and a serial-number exchange
whose two checksum bytes are both wrong is accepted by `si7021_get_serial_num`. -/
theorem ok_despite_checksum_mismatch :
    crc_register [0x12, 0x34] 2 ≠ 0x01 ∧
    (write_then_read (scripted_bus [1] [(3, [0x12, 0x34, 0x01])])
        [] { i2c := some i2c_inst_t.i2c0, hold_master := true } 0xE5 0).err = SI7021_OK ∧
    (write_then_read (scripted_bus [1] [(3, [0x12, 0x34, 0x01])])
        [] { i2c := some i2c_inst_t.i2c0, hold_master := true } 0xE5 0).out = 0x1234 ∧
    crc_register [0x01, 0x02, 0x03, 0x04] 4 ≠ 0x01 ∧
    crc_register [0x05, 0x06, 0x07, 0x08] 4 ≠ 0x01 ∧
    (si7021_get_serial_num
        (scripted_bus [2, 2]
          [(8, [0x01, 0xAA, 0x02, 0xBB, 0x03, 0xCC, 0x04, 0x01]),
           (6, [0x05, 0x06, 0xAA, 0x07, 0x08, 0x01])])
        [] { i2c := some i2c_inst_t.i2c0, hold_master := true }
        { serial_buffer := [0, 0, 0, 0, 0, 0, 0, 0] }).err = SI7021_OK := by
  decide

/-! ## Transaction executor -/

/-- The first call of `write_then_read` is the 1-byte write of its opcode. -/
theorem write_then_read_trace (T : Transport) (tr : Trace) (sensor : si7021_t)
    (command result : Nat) :
    (write_then_read T tr sensor command result).trace
        = tr ++ [BusCall.write sensor.i2c SI7021_ADDR [command] 1 false] ∨
    (write_then_read T tr sensor command result).trace
        = tr ++ [BusCall.write sensor.i2c SI7021_ADDR [command] 1 false,
                 BusCall.read sensor.i2c SI7021_ADDR 3 false] := by
  unfold write_then_read i2c_read_blocking i2c_write_blocking
  simp only []
  split_ifs <;> simp

theorem shift_or_bytes (b0 b1 : Nat) (hb0 : b0 < 256) (hb1 : b1 < 256) :
    ((b0 <<< 8) ||| b1) % 65536 = 256 * b0 + b1 := by
  have h : 2 ^ 8 * b0 + b1 = 2 ^ 8 * b0 ||| b1 := Nat.mul_add_lt_is_or (by omega) b0
  rw [Nat.shiftLeft_eq, Nat.mul_comm b0 (2 ^ 8), ← h]
  omega

/-- The raw code of a successful transaction is the big-endian value of the first two
bytes the bus delivered. -/
theorem write_then_read_ok_out (T : Transport) (tr : Trace) (sensor : si7021_t)
    (command result b0 b1 b2 : Nat) (hb0 : b0 < 256) (hb1 : b1 < 256)
    (hdel : (T.read (tr ++ [BusCall.write sensor.i2c SI7021_ADDR [command] 1 false,
        BusCall.read sensor.i2c SI7021_ADDR 3 false])).2 = [b0, b1, b2])
    (hok : (write_then_read T tr sensor command result).err = SI7021_OK) :
    (write_then_read T tr sensor command result).out = 256 * b0 + b1 := by
  unfold write_then_read i2c_read_blocking i2c_write_blocking at hok ⊢
  simp only [List.append_assoc, List.singleton_append] at hok ⊢
  split_ifs at hok ⊢
  simp only [hdel, buffer.fill, buffer.cell]
  simp [Nat.mod_eq_of_lt hb0, Nat.mod_eq_of_lt hb1, shift_or_bytes b0 b1 hb0 hb1]

/-- A successful transaction issued exactly the opcode write and the 3-byte read. -/
theorem write_then_read_ok_trace (T : Transport) (tr : Trace) (sensor : si7021_t)
    (command result : Nat)
    (hok : (write_then_read T tr sensor command result).err = SI7021_OK) :
    (write_then_read T tr sensor command result).trace
      = tr ++ [BusCall.write sensor.i2c SI7021_ADDR [command] 1 false,
               BusCall.read sensor.i2c SI7021_ADDR 3 false] := by
  unfold write_then_read i2c_read_blocking i2c_write_blocking at hok ⊢
  simp only [] at hok ⊢
  split_ifs at hok ⊢
  simp

/-- A failed transaction leaves the caller's `*result` as it was. -/
theorem write_then_read_err_out (T : Transport) (tr : Trace) (sensor : si7021_t)
    (command result : Nat)
    (herr : (write_then_read T tr sensor command result).err ≠ SI7021_OK) :
    (write_then_read T tr sensor command result).out = result := by
  unfold write_then_read i2c_read_blocking i2c_write_blocking at herr ⊢
  simp only [] at herr ⊢
  split_ifs at herr ⊢ <;> simp_all

/-- C4 (code defect): with `hold_master` false, the opcode `read_temperature` writes is
still `0xE3` (the hold-mode opcode), not `0xF3`: on every bus the first call it issues
is the write of the single byte `0xE3`. -/
theorem read_temperature_ignores_hold_master (T : Transport) (tr : Trace)
    (i2c : Option i2c_inst_t) (reading : si7021_reading_t) (temp_code : Nat) :
    ∃ rest : Trace,
      (read_temperature T tr { i2c := i2c, hold_master := false } reading temp_code).trace
        = tr ++ BusCall.write i2c SI7021_ADDR [0xE3] 1 false :: rest := by
  have h := write_then_read_trace T tr { i2c := i2c, hold_master := false }
    SI7021_MEASURE_TEMP_HOLD temp_code
  have ht : (read_temperature T tr { i2c := i2c, hold_master := false } reading temp_code).trace
      = (write_then_read T tr { i2c := i2c, hold_master := false }
          SI7021_MEASURE_TEMP_HOLD temp_code).trace := by
    unfold read_temperature
    simp only []
    split_ifs <;> rfl
  rw [ht]
  rcases h with h | h
  · exact ⟨[], by rw [h]; rfl⟩
  · exact ⟨[BusCall.read i2c SI7021_ADDR 3 false], by rw [h]; rfl⟩

/-- C5 (code defect): the humidity is computed by integer division.  For the response
`[0xFF, 0xFF, 0x2D]` (raw code 65535 with its CRC `0x2D`) `read_humidity` returns
`SI7021_OK` and stores exactly `118`, which is almost `1` below `125 * 65535 / 65536 - 6`. -/
theorem read_humidity_truncates :
    crc_register [0xFF, 0xFF] 2 = 0x2D ∧
    (read_humidity (scripted_bus [1] [(3, [0xFF, 0xFF, 0x2D])]) []
        { i2c := some i2c_inst_t.i2c0, hold_master := true }
        { temperature := 0, humidity := 0 } 0).err = SI7021_OK ∧
    (read_humidity (scripted_bus [1] [(3, [0xFF, 0xFF, 0x2D])]) []
        { i2c := some i2c_inst_t.i2c0, hold_master := true }
        { temperature := 0, humidity := 0 } 0).out.humidity = 118 ∧
    (118 : ℚ) + 99 / 100 < 125 * 65535 / 65536 - 6 := by
  refine ⟨by decide, by decide, ?_, by norm_num⟩
  decide

/-! ## Measurement API -/

/-- The opcode `read_humidity` selects. -/
theorem read_humidity_unfold (T : Transport) (tr : Trace) (sensor : si7021_t)
    (reading : si7021_reading_t) (hum_code : Nat) :
    (read_humidity T tr sensor reading hum_code).err
        = (write_then_read T tr sensor (if sensor.hold_master then 0xE5 else 0xF5) hum_code).err ∧
    (read_humidity T tr sensor reading hum_code).trace
        = (write_then_read T tr sensor (if sensor.hold_master then 0xE5 else 0xF5)
            hum_code).trace ∧
    (read_humidity T tr sensor reading hum_code).out.temperature = reading.temperature ∧
    ((read_humidity T tr sensor reading hum_code).err ≠ SI7021_OK →
      (read_humidity T tr sensor reading hum_code).out = reading) := by
  unfold read_humidity
  simp only [SI7021_MEASURE_HUM_HOLD, SI7021_MEASURE_HUM_NO_HOLD]
  split_ifs <;> simp_all

/-- C6: whenever `read_temperature` returns `SI7021_OK` after the bus delivered the
bytes `b0, b1, b2`, the value assigned to the temperature field is
`175.72 * C / 65536 - 46.85` with `C = 256 * b0 + b1`, as an exact rational (no
truncation, no clamping): `-46.85` for the raw code 0 and about `128.87`, above the
sensor's 125 degree range, for the raw code 65535. -/
theorem read_temperature_value (T : Transport) (tr : Trace) (sensor : si7021_t)
    (reading : si7021_reading_t) (temp_code b0 b1 b2 : Nat) (hb0 : b0 < 256) (hb1 : b1 < 256)
    (hdel : (T.read (tr ++ [BusCall.write sensor.i2c SI7021_ADDR [SI7021_MEASURE_TEMP_HOLD] 1 false,
        BusCall.read sensor.i2c SI7021_ADDR 3 false])).2 = [b0, b1, b2])
    (hok : (read_temperature T tr sensor reading temp_code).err = SI7021_OK) :
    (read_temperature T tr sensor reading temp_code).out.temperature
        = 17572 / 100 * ((256 * b0 + b1 : ℕ) : ℚ) / 65536 - 4685 / 100 ∧
    (b0 = 0 ∧ b1 = 0 →
      (read_temperature T tr sensor reading temp_code).out.temperature = -(4685 / 100)) ∧
    (b0 = 255 ∧ b1 = 255 →
      12886 / 100 < (read_temperature T tr sensor reading temp_code).out.temperature ∧
      (read_temperature T tr sensor reading temp_code).out.temperature < 12888 / 100) := by
  have hval : (read_temperature T tr sensor reading temp_code).out.temperature
      = 17572 / 100 * ((256 * b0 + b1 : ℕ) : ℚ) / 65536 - 4685 / 100 := by
    unfold read_temperature at hok ⊢
    simp only [] at hok ⊢
    split_ifs at hok ⊢ with h
    · exact absurd hok h
    · rw [write_then_read_ok_out T tr sensor _ temp_code b0 b1 b2 hb0 hb1 hdel
        (not_not.mp h)]
  refine ⟨hval, ?_, ?_⟩
  · rintro ⟨rfl, rfl⟩
    rw [hval]
    norm_num
  · rintro ⟨rfl, rfl⟩
    rw [hval]
    norm_num

/-- Witness of C6 on a bus delivering the raw code 65535 with its CRC. -/
theorem read_temperature_value_witness :
    (read_temperature (scripted_bus [1] [(3, [0xFF, 0xFF, 0x2D])]) []
        { i2c := some i2c_inst_t.i2c0, hold_master := true }
        { temperature := 0, humidity := 0 } 0).err = SI7021_OK ∧
    (read_temperature (scripted_bus [1] [(3, [0xFF, 0xFF, 0x2D])]) []
        { i2c := some i2c_inst_t.i2c0, hold_master := true }
        { temperature := 0, humidity := 0 } 0).out.temperature
      = 17572 / 100 * ((256 * 255 + 255 : ℕ) : ℚ) / 65536 - 4685 / 100 :=
  ⟨by decide,
   (read_temperature_value (scripted_bus [1] [(3, [0xFF, 0xFF, 0x2D])]) []
      { i2c := some i2c_inst_t.i2c0, hold_master := true }
      { temperature := 0, humidity := 0 } 0 255 255 0x2D (by decide) (by decide)
      (by decide) (by decide)).1⟩

/-- The stages of `read_temperature_humidity`: the humidity stage, then a transaction
with the opcode `0xE3`. -/
theorem read_temperature_humidity_unfold (T : Transport) (tr : Trace) (sensor : si7021_t)
    (reading : si7021_reading_t) (hum_code temp_code : Nat) :
    ((read_humidity T tr sensor reading hum_code).err ≠ SI7021_OK →
      (read_temperature_humidity T tr sensor reading hum_code temp_code).err
          = (read_humidity T tr sensor reading hum_code).err ∧
      (read_temperature_humidity T tr sensor reading hum_code temp_code).out
          = (read_humidity T tr sensor reading hum_code).out ∧
      (read_temperature_humidity T tr sensor reading hum_code temp_code).trace
          = (read_humidity T tr sensor reading hum_code).trace) ∧
    ((read_humidity T tr sensor reading hum_code).err = SI7021_OK →
      (read_temperature_humidity T tr sensor reading hum_code temp_code).err
          = (write_then_read T (read_humidity T tr sensor reading hum_code).trace sensor 0xE3
              temp_code).err ∧
      (read_temperature_humidity T tr sensor reading hum_code temp_code).trace
          = (write_then_read T (read_humidity T tr sensor reading hum_code).trace sensor 0xE3
              temp_code).trace ∧
      (read_temperature_humidity T tr sensor reading hum_code temp_code).out.humidity
          = (read_humidity T tr sensor reading hum_code).out.humidity ∧
      ((read_temperature_humidity T tr sensor reading hum_code temp_code).err ≠ SI7021_OK →
        (read_temperature_humidity T tr sensor reading hum_code temp_code).out
          = (read_humidity T tr sensor reading hum_code).out) ∧
      ((read_temperature_humidity T tr sensor reading hum_code temp_code).err = SI7021_OK →
        (read_temperature_humidity T tr sensor reading hum_code temp_code).out.temperature
          = 17572 / 100 * ((write_then_read T (read_humidity T tr sensor reading hum_code).trace
              sensor 0xE3 temp_code).out : ℚ) / 65536 - 4685 / 100)) := by
  unfold read_temperature_humidity
  simp only [SI7021_MEASURE_TEMP_HOLD]
  split_ifs <;> simp_all

/-- C7 (as stated, refuted): on a bus where the humidity stage succeeds,
`read_temperature_humidity` writes the temperature-measurement opcode `0xE3` and never
writes the read-previous-temperature opcode `0xE0`. -/
theorem read_temperature_humidity_not_prev :
    (read_humidity (scripted_bus [1, 1] [(3, [0x80, 0x00, 0x23]), (3, [0x66, 0x4C, 0x4F])]) []
        { i2c := some i2c_inst_t.i2c0, hold_master := true }
        { temperature := 0, humidity := 0 } 0).err = SI7021_OK ∧
    (read_temperature_humidity
        (scripted_bus [1, 1] [(3, [0x80, 0x00, 0x23]), (3, [0x66, 0x4C, 0x4F])]) []
        { i2c := some i2c_inst_t.i2c0, hold_master := true }
        { temperature := 0, humidity := 0 } 0 0).trace
      = [BusCall.write (some i2c_inst_t.i2c0) 0x40 [0xE5] 1 false,
         BusCall.read (some i2c_inst_t.i2c0) 0x40 3 false,
         BusCall.write (some i2c_inst_t.i2c0) 0x40 [0xE3] 1 false,
         BusCall.read (some i2c_inst_t.i2c0) 0x40 3 false] ∧
    (read_temperature_humidity
        (scripted_bus [1, 1] [(3, [0x80, 0x00, 0x23]), (3, [0x66, 0x4C, 0x4F])]) []
        { i2c := some i2c_inst_t.i2c0, hold_master := true }
        { temperature := 0, humidity := 0 } 0 0).trace.any (BusCall.writes_opcode 0xE0)
      = false ∧
    (read_temperature_humidity
        (scripted_bus [1, 1] [(3, [0x80, 0x00, 0x23]), (3, [0x66, 0x4C, 0x4F])]) []
        { i2c := some i2c_inst_t.i2c0, hold_master := true }
        { temperature := 0, humidity := 0 } 0 0).trace.any (BusCall.writes_opcode 0xE3)
      = true := by
  decide

/-- C7 (amended): whenever the humidity stage succeeds, the calls
`read_temperature_humidity` issues are the humidity transaction (opcode write and
3-byte read) followed by the write of one temperature-measurement opcode (`0xE3` or
`0xF3`, and `0xE3` when `hold_master` is true), which starts a fresh conversion, and at
most the 3-byte read after it; none of its calls writes `0xE0`. -/
theorem read_temperature_humidity_opcodes (T : Transport) (tr : Trace) (sensor : si7021_t)
    (reading : si7021_reading_t) (hum_code temp_code : Nat)
    (hhum : (read_humidity T tr sensor reading hum_code).err = SI7021_OK) :
    ∃ (op : Nat) (rest : Trace),
      (read_temperature_humidity T tr sensor reading hum_code temp_code).trace
        = tr ++ [BusCall.write sensor.i2c SI7021_ADDR
                   [if sensor.hold_master then 0xE5 else 0xF5] 1 false,
                 BusCall.read sensor.i2c SI7021_ADDR 3 false,
                 BusCall.write sensor.i2c SI7021_ADDR [op] 1 false] ++ rest ∧
      (op = SI7021_MEASURE_TEMP_HOLD ∨ op = SI7021_MEASURE_TEMP_NO_HOLD) ∧
      (sensor.hold_master = true → op = 0xE3) ∧
      (rest = [] ∨ rest = [BusCall.read sensor.i2c SI7021_ADDR 3 false]) ∧
      ∀ c ∈ (read_temperature_humidity T tr sensor reading hum_code temp_code).trace.drop
          tr.length, c.writes_opcode 0xE0 = false := by
  obtain ⟨he, ht, -, -⟩ := read_humidity_unfold T tr sensor reading hum_code
  have htr := write_then_read_ok_trace T tr sensor _ hum_code (he ▸ hhum)
  obtain ⟨-, h2⟩ := read_temperature_humidity_unfold T tr sensor reading hum_code temp_code
  obtain ⟨-, h2t, -⟩ := h2 hhum
  rw [h2t, ht, htr]
  rcases write_then_read_trace T (tr ++ [BusCall.write sensor.i2c SI7021_ADDR
      [if sensor.hold_master then 0xE5 else 0xF5] 1 false,
      BusCall.read sensor.i2c SI7021_ADDR 3 false]) sensor 0xE3 temp_code with h | h
  · refine ⟨0xE3, [], ?_, Or.inl rfl, fun _ => rfl, Or.inl rfl, ?_⟩
    · rw [h]; simp
    · rw [h]
      intro c hc
      simp only [List.append_assoc, List.drop_left, List.singleton_append, List.cons_append,
        List.nil_append, List.mem_cons, List.mem_singleton, List.not_mem_nil, or_false] at hc
      rcases hc with rfl | rfl | rfl <;> cases hm : sensor.hold_master <;>
        simp [BusCall.writes_opcode]
  · refine ⟨0xE3, [BusCall.read sensor.i2c SI7021_ADDR 3 false], ?_, Or.inl rfl,
      fun _ => rfl, Or.inr rfl, ?_⟩
    · rw [h]; simp
    · rw [h]
      intro c hc
      simp only [List.append_assoc, List.drop_left, List.singleton_append, List.cons_append,
        List.nil_append, List.mem_cons, List.mem_singleton, List.not_mem_nil, or_false] at hc
      rcases hc with rfl | rfl | rfl | rfl <;> cases hm : sensor.hold_master <;>
        simp [BusCall.writes_opcode]

/-- Witness of C7 (amended) on a hold-mode handle and a bus whose two transactions both
succeed. -/
theorem read_temperature_humidity_opcodes_witness :
    (read_humidity (scripted_bus [1, 1] [(3, [0x80, 0x00, 0x23]), (3, [0x66, 0x4C, 0x4F])]) []
        { i2c := some i2c_inst_t.i2c0, hold_master := true }
        { temperature := 0, humidity := 0 } 0).err = SI7021_OK ∧
    ∃ (op : Nat) (rest : Trace),
      (read_temperature_humidity
          (scripted_bus [1, 1] [(3, [0x80, 0x00, 0x23]), (3, [0x66, 0x4C, 0x4F])]) []
          { i2c := some i2c_inst_t.i2c0, hold_master := true }
          { temperature := 0, humidity := 0 } 0 0).trace
        = [] ++ [BusCall.write (some i2c_inst_t.i2c0) SI7021_ADDR
                   [if true = true then 0xE5 else 0xF5] 1 false,
                 BusCall.read (some i2c_inst_t.i2c0) SI7021_ADDR 3 false,
                 BusCall.write (some i2c_inst_t.i2c0) SI7021_ADDR [op] 1 false] ++ rest ∧
      (op = SI7021_MEASURE_TEMP_HOLD ∨ op = SI7021_MEASURE_TEMP_NO_HOLD) ∧
      (true = true → op = 0xE3) ∧
      (rest = [] ∨ rest = [BusCall.read (some i2c_inst_t.i2c0) SI7021_ADDR 3 false]) ∧
      ∀ c ∈ (read_temperature_humidity
          (scripted_bus [1, 1] [(3, [0x80, 0x00, 0x23]), (3, [0x66, 0x4C, 0x4F])]) []
          { i2c := some i2c_inst_t.i2c0, hold_master := true }
          { temperature := 0, humidity := 0 } 0 0).trace.drop ([] : Trace).length,
        c.writes_opcode 0xE0 = false :=
  ⟨by decide,
   read_temperature_humidity_opcodes
      (scripted_bus [1, 1] [(3, [0x80, 0x00, 0x23]), (3, [0x66, 0x4C, 0x4F])]) []
      { i2c := some i2c_inst_t.i2c0, hold_master := true }
      { temperature := 0, humidity := 0 } 0 0 (by decide)⟩

/-- C8 (as stated, refuted): the humidity stage succeeds, the opcode write of the
temperature stage fails, `read_temperature_humidity` returns `SI7021_ERR_WRITE_FAIL`,
and the caller's humidity field has changed from `30` to `56`. -/
theorem read_temperature_humidity_partial :
    (read_humidity (scripted_bus [1, 0] [(3, [0x80, 0x00, 0x23])]) []
        { i2c := some i2c_inst_t.i2c0, hold_master := true }
        { temperature := 20, humidity := 30 } 0).err = SI7021_OK ∧
    (read_temperature_humidity (scripted_bus [1, 0] [(3, [0x80, 0x00, 0x23])]) []
        { i2c := some i2c_inst_t.i2c0, hold_master := true }
        { temperature := 20, humidity := 30 } 0 0).err = SI7021_ERR_WRITE_FAIL ∧
    (read_temperature_humidity (scripted_bus [1, 0] [(3, [0x80, 0x00, 0x23])]) []
        { i2c := some i2c_inst_t.i2c0, hold_master := true }
        { temperature := 20, humidity := 30 } 0 0).out.humidity = 56 ∧
    (read_temperature_humidity (scripted_bus [1, 0] [(3, [0x80, 0x00, 0x23])]) []
        { i2c := some i2c_inst_t.i2c0, hold_master := true }
        { temperature := 20, humidity := 30 } 0 0).out.humidity ≠ 30 := by
  decide

/-- C8 (amended): if `read_temperature_humidity` returns an error, the temperature field
of the caller's reading is unmodified, and the whole reading is unmodified when the
error is that of the humidity stage; when the humidity stage succeeded and the
temperature stage failed, the humidity field holds what the humidity stage stored.  If
it returns `SI7021_OK`, the humidity field holds what the humidity stage stored and the
temperature field holds `175.72 * C / 65536 - 46.85` for the raw code `C` of the
second transaction. -/
theorem read_temperature_humidity_fields (T : Transport) (tr : Trace) (sensor : si7021_t)
    (reading : si7021_reading_t) (hum_code temp_code : Nat) :
    ((read_temperature_humidity T tr sensor reading hum_code temp_code).err ≠ SI7021_OK →
      (read_temperature_humidity T tr sensor reading hum_code temp_code).out.temperature
          = reading.temperature ∧
      ((read_humidity T tr sensor reading hum_code).err ≠ SI7021_OK →
        (read_temperature_humidity T tr sensor reading hum_code temp_code).err
            = (read_humidity T tr sensor reading hum_code).err ∧
        (read_temperature_humidity T tr sensor reading hum_code temp_code).out = reading) ∧
      ((read_humidity T tr sensor reading hum_code).err = SI7021_OK →
        (read_temperature_humidity T tr sensor reading hum_code temp_code).out.humidity
            = (read_humidity T tr sensor reading hum_code).out.humidity)) ∧
    ((read_temperature_humidity T tr sensor reading hum_code temp_code).err = SI7021_OK →
      (read_humidity T tr sensor reading hum_code).err = SI7021_OK ∧
      (read_temperature_humidity T tr sensor reading hum_code temp_code).out.humidity
          = (read_humidity T tr sensor reading hum_code).out.humidity ∧
      (read_temperature_humidity T tr sensor reading hum_code temp_code).out.temperature
          = 17572 / 100 * ((write_then_read T (read_humidity T tr sensor reading hum_code).trace
              sensor SI7021_MEASURE_TEMP_HOLD temp_code).out : ℚ) / 65536 - 4685 / 100) := by
  obtain ⟨-, -, hkeep, hsame⟩ := read_humidity_unfold T tr sensor reading hum_code
  obtain ⟨h1, h2⟩ := read_temperature_humidity_unfold T tr sensor reading hum_code temp_code
  by_cases hh : (read_humidity T tr sensor reading hum_code).err = SI7021_OK
  · obtain ⟨-, -, hhum, hfail, hgood⟩ := h2 hh
    refine ⟨fun herr => ⟨?_, fun hn => absurd hh hn, fun _ => hhum⟩, fun hok => ⟨hh, hhum, ?_⟩⟩
    · rw [hfail herr, hkeep]
    · exact hgood hok
  · obtain ⟨he, ho, -⟩ := h1 hh
    refine ⟨fun _ => ⟨?_, fun _ => ⟨he, ?_⟩, fun hy => absurd hy hh⟩, fun hok => ?_⟩
    · rw [ho, hkeep]
    · rw [ho, hsame hh]
    · exact absurd (he ▸ hok) hh

/-! ## Configuration API -/

/-- C9: `si7021_set_heater_level` returns `SI7021_ERR_INVALID_HEATER_LEVEL` exactly when
the level exceeds 15, and then issues no bus call; for a level of at most 15 it issues
exactly one call, the 2-byte write of `{0x51, level}` to address `0x40`, and returns
`SI7021_OK` if the bus reports 2 bytes written and `SI7021_ERR_WRITE_FAIL` otherwise. -/
theorem si7021_set_heater_level_spec (T : Transport) (tr : Trace) (sensor : si7021_t)
    (heater_level : Nat) :
    ((si7021_set_heater_level T tr sensor heater_level).err = SI7021_ERR_INVALID_HEATER_LEVEL
        ↔ heater_level > 15) ∧
    (heater_level > 15 → (si7021_set_heater_level T tr sensor heater_level).trace = tr) ∧
    (heater_level ≤ 15 →
      (si7021_set_heater_level T tr sensor heater_level).trace
          = tr ++ [BusCall.write sensor.i2c 0x40 [0x51, heater_level] 2 true] ∧
      (T.write (tr ++ [BusCall.write sensor.i2c 0x40 [0x51, heater_level] 2 true]) = 2 →
        (si7021_set_heater_level T tr sensor heater_level).err = SI7021_OK) ∧
      (T.write (tr ++ [BusCall.write sensor.i2c 0x40 [0x51, heater_level] 2 true]) ≠ 2 →
        (si7021_set_heater_level T tr sensor heater_level).err = SI7021_ERR_WRITE_FAIL)) := by
  unfold si7021_set_heater_level i2c_write_blocking
  simp only [SI7021_ADDR, SI7021_WRITE_HEATER_REG]
  by_cases hl : heater_level > 15
  · simp [hl]
  · have hle : heater_level ≤ 15 := Nat.le_of_not_lt hl
    simp only [hl, if_false]
    refine ⟨?_, fun h => absurd h (by simp), fun _ => ⟨?_, ?_, ?_⟩⟩
    · split_ifs <;> simp
    · split_ifs <;> rfl
    · intro h2; simp [h2]
    · intro h2; simp [h2]

/-- The byte a successful `read_user_register` hands back fits in eight bits. -/
theorem read_user_register_out_lt (T : Transport) (tr : Trace) (sensor : si7021_t)
    (user_reg : Nat) (hok : (read_user_register T tr sensor user_reg).err = SI7021_OK) :
    (read_user_register T tr sensor user_reg).out < 256 := by
  unfold read_user_register i2c_read_blocking i2c_write_blocking at hok ⊢
  simp only [] at hok ⊢
  split_ifs at hok ⊢
  simp only [buffer.fill, buffer.cell]
  rcases hd : (T.read ((tr ++ [BusCall.write sensor.i2c SI7021_ADDR [SI7021_READ_USER_REG] 1 true])
      ++ [BusCall.read sensor.i2c SI7021_ADDR 1 false])).2 with _ | ⟨d, ds⟩
  · simp
  · simp [List.take]
    omega

theorem heater_bit_arith : ∀ r < 256,
    (r ||| (1 <<< 2)) % 256 = r ||| 0x04 ∧
    (r &&& (2 ^ 32 - 1 - (1 <<< 2))) % 256 = r &&& 0xFB ∧
    (r ||| 0x04).testBit 2 = true ∧ (r &&& 0xFB).testBit 2 = false ∧
    ∀ i < 8, i ≠ 2 →
      (r ||| 0x04).testBit i = r.testBit i ∧ (r &&& 0xFB).testBit i = r.testBit i := by
  decide

/-- A successful `read_user_register` issued the opcode write and the 1-byte read. -/
theorem read_user_register_ok_trace (T : Transport) (tr : Trace) (sensor : si7021_t)
    (user_reg : Nat) (hok : (read_user_register T tr sensor user_reg).err = SI7021_OK) :
    (read_user_register T tr sensor user_reg).trace
      = tr ++ [BusCall.write sensor.i2c 0x40 [0xE7] 1 true,
               BusCall.read sensor.i2c 0x40 1 false] := by
  unfold read_user_register i2c_read_blocking i2c_write_blocking at hok ⊢
  simp only [] at hok ⊢
  split_ifs at hok ⊢
  simp [SI7021_ADDR, SI7021_READ_USER_REG]

/-- The only call of `write_user_register` is the 2-byte write of `{0xE6, value}`. -/
theorem write_user_register_trace (T : Transport) (tr : Trace) (sensor : si7021_t)
    (user_reg : Nat) :
    (write_user_register T tr sensor user_reg).trace
      = tr ++ [BusCall.write sensor.i2c 0x40 [0xE6, user_reg] 2 true] := by
  unfold write_user_register i2c_write_blocking
  simp only [SI7021_ADDR, SI7021_WRITE_USER_REG]
  split_ifs <;> rfl

/-- C10: when the user-register read succeeds with the byte `r`, `si7021_enable_heater`
writes `{0xE6, r OR 0x04}` and `si7021_disable_heater` writes `{0xE6, r AND 0xFB}` (after
the register read, as their only further call); bit 2 of the written value is set, resp.
cleared, and each of the other seven bits equals that of `r`. -/
theorem heater_read_modify_write (T : Transport) (tr : Trace) (sensor : si7021_t)
    (user_reg r : Nat)
    (hok : (read_user_register T tr sensor user_reg).err = SI7021_OK)
    (hr : (read_user_register T tr sensor user_reg).out = r) :
    (si7021_enable_heater T tr sensor user_reg).trace
        = tr ++ [BusCall.write sensor.i2c 0x40 [0xE7] 1 true,
                 BusCall.read sensor.i2c 0x40 1 false,
                 BusCall.write sensor.i2c 0x40 [0xE6, r ||| 0x04] 2 true] ∧
    (si7021_disable_heater T tr sensor user_reg).trace
        = tr ++ [BusCall.write sensor.i2c 0x40 [0xE7] 1 true,
                 BusCall.read sensor.i2c 0x40 1 false,
                 BusCall.write sensor.i2c 0x40 [0xE6, r &&& 0xFB] 2 true] ∧
    (r ||| 0x04).testBit 2 = true ∧ (r &&& 0xFB).testBit 2 = false ∧
    ∀ i < 8, i ≠ 2 →
      (r ||| 0x04).testBit i = r.testBit i ∧ (r &&& 0xFB).testBit i = r.testBit i := by
  have hlt : r < 256 := hr ▸ read_user_register_out_lt T tr sensor user_reg hok
  obtain ⟨hor, hand, hset, hclr, hrest⟩ := heater_bit_arith r hlt
  have htr := read_user_register_ok_trace T tr sensor user_reg hok
  refine ⟨?_, ?_, hset, hclr, hrest⟩
  · have : (si7021_enable_heater T tr sensor user_reg).trace
        = (write_user_register T (read_user_register T tr sensor user_reg).trace sensor
            (((read_user_register T tr sensor user_reg).out ||| (1 <<< 2)) % 256)).trace := by
      unfold si7021_enable_heater
      simp only []
      split_ifs <;> rfl
    rw [this, write_user_register_trace, htr, hr, hor]
    simp
  · have : (si7021_disable_heater T tr sensor user_reg).trace
        = (write_user_register T (read_user_register T tr sensor user_reg).trace sensor
            (((read_user_register T tr sensor user_reg).out &&& (2 ^ 32 - 1 - (1 <<< 2)))
              % 256)).trace := by
      unfold si7021_disable_heater
      simp only []
      split_ifs <;> rfl
    rw [this, write_user_register_trace, htr, hr, hand]
    simp

/-- Witness of C10 on a bus whose user register reads `0x3A`. -/
theorem heater_read_modify_write_witness :
    (read_user_register (scripted_bus [1, 2] [(1, [0x3A])]) []
        { i2c := some i2c_inst_t.i2c0, hold_master := true } 0).err = SI7021_OK ∧
    (si7021_enable_heater (scripted_bus [1, 2] [(1, [0x3A])]) []
        { i2c := some i2c_inst_t.i2c0, hold_master := true } 0).trace
      = [] ++ [BusCall.write (some i2c_inst_t.i2c0) 0x40 [0xE7] 1 true,
               BusCall.read (some i2c_inst_t.i2c0) 0x40 1 false,
               BusCall.write (some i2c_inst_t.i2c0) 0x40 [0xE6, 0x3A ||| 0x04] 2 true] ∧
    (si7021_disable_heater (scripted_bus [1, 2] [(1, [0x3A])]) []
        { i2c := some i2c_inst_t.i2c0, hold_master := true } 0).trace
      = [] ++ [BusCall.write (some i2c_inst_t.i2c0) 0x40 [0xE7] 1 true,
               BusCall.read (some i2c_inst_t.i2c0) 0x40 1 false,
               BusCall.write (some i2c_inst_t.i2c0) 0x40 [0xE6, 0x3A &&& 0xFB] 2 true] :=
  ⟨by decide,
   (heater_read_modify_write (scripted_bus [1, 2] [(1, [0x3A])]) []
      { i2c := some i2c_inst_t.i2c0, hold_master := true } 0 0x3A (by decide) (by decide)).1,
   (heater_read_modify_write (scripted_bus [1, 2] [(1, [0x3A])]) []
      { i2c := some i2c_inst_t.i2c0, hold_master := true } 0 0x3A (by decide) (by decide)).2.1⟩


/-- C11 (code defect): the error of the user-register read is dropped.  On a bus that
rejects the opcode write of the register read (0 bytes) and accepts the 2-byte register
write, `read_user_register` fails with `SI7021_ERR_WRITE_FAIL`, yet both heater
functions return `SI7021_OK`, having written the indeterminate local (`0x00` here, so
`{0xE6, 0x04}` resp. `{0xE6, 0x00}`); likewise when the 1-byte read comes back short. -/
theorem heater_drops_read_error :
    (read_user_register (scripted_bus [0, 2] []) []
        { i2c := some i2c_inst_t.i2c0, hold_master := true } 0).err = SI7021_ERR_WRITE_FAIL ∧
    (si7021_enable_heater (scripted_bus [0, 2] []) []
        { i2c := some i2c_inst_t.i2c0, hold_master := true } 0).err = SI7021_OK ∧
    (si7021_disable_heater (scripted_bus [0, 2] []) []
        { i2c := some i2c_inst_t.i2c0, hold_master := true } 0).err = SI7021_OK ∧
    (si7021_enable_heater (scripted_bus [0, 2] []) []
        { i2c := some i2c_inst_t.i2c0, hold_master := true } 0).trace
      = [BusCall.write (some i2c_inst_t.i2c0) 0x40 [0xE7] 1 true,
         BusCall.write (some i2c_inst_t.i2c0) 0x40 [0xE6, 0x04] 2 true] ∧
    (read_user_register (scripted_bus [1, 2] [(0, [])]) []
        { i2c := some i2c_inst_t.i2c0, hold_master := true } 0).err = SI7021_ERR_READ_FAIL ∧
    (si7021_enable_heater (scripted_bus [1, 2] [(0, [])]) []
        { i2c := some i2c_inst_t.i2c0, hold_master := true } 0).err = SI7021_OK ∧
    (si7021_disable_heater (scripted_bus [1, 2] [(0, [])]) []
        { i2c := some i2c_inst_t.i2c0, hold_master := true } 0).err = SI7021_OK := by
  decide

theorem heater_bit_test : ∀ r < 256, ((r &&& (1 <<< 2)) != 0) = r.testBit 2 := by
  decide

/-- C12: `si7021_is_heater_enabled` returns `SI7021_OK` on every bus, also when the
user-register read fails; when that read succeeds, the boolean reported is bit 2 of the
byte read. -/
theorem si7021_is_heater_enabled_spec (T : Transport) (tr : Trace) (sensor : si7021_t)
    (user_register : Nat) :
    (si7021_is_heater_enabled T tr sensor user_register).err = SI7021_OK ∧
    ((read_user_register T tr sensor user_register).err ≠ SI7021_OK →
      (si7021_is_heater_enabled T tr sensor user_register).err = SI7021_OK) ∧
    ((read_user_register T tr sensor user_register).err = SI7021_OK →
      ((si7021_is_heater_enabled T tr sensor user_register).out = true ↔
        (read_user_register T tr sensor user_register).out.testBit 2 = true)) := by
  refine ⟨rfl, fun _ => rfl, fun hok => ?_⟩
  have hlt := read_user_register_out_lt T tr sensor user_register hok
  have hb := heater_bit_test _ hlt
  unfold si7021_is_heater_enabled
  simp only []
  rw [hb]

/-! ## Lifecycle API -/

/-- C16: `si7021_init` returns `SI7021_ERR_NO_I2C` exactly when the handle's `i2c` is
`NULL`, and then issues no bus call; otherwise it issues exactly one call, a 1-byte read
addressed to `0x40` (no write), and returns `SI7021_OK` if the read reports 1 byte and
`SI7021_ERR_NO_RESPONSE` if it reports any other count. -/
theorem si7021_init_spec (T : Transport) (tr : Trace) (sensor : si7021_t) :
    ((si7021_init T tr sensor).err = SI7021_ERR_NO_I2C ↔ sensor.i2c = none) ∧
    (sensor.i2c = none → (si7021_init T tr sensor).trace = tr) ∧
    (sensor.i2c ≠ none →
      (si7021_init T tr sensor).trace
          = tr ++ [BusCall.read (some i2c_inst_t.i2c0) 0x40 1 false] ∧
      ((T.read (tr ++ [BusCall.read (some i2c_inst_t.i2c0) 0x40 1 false])).1 = 1 →
        (si7021_init T tr sensor).err = SI7021_OK) ∧
      ((T.read (tr ++ [BusCall.read (some i2c_inst_t.i2c0) 0x40 1 false])).1 ≠ 1 →
        (si7021_init T tr sensor).err = SI7021_ERR_NO_RESPONSE)) := by
  unfold si7021_init i2c_read_blocking
  simp only [SI7021_ADDR]
  by_cases hn : sensor.i2c = none
  · simp [hn]
  · simp only [hn, if_false]
    refine ⟨?_, fun h => absurd h (by simp), fun _ => ⟨?_, ?_, ?_⟩⟩
    · split_ifs <;> simp
    · split_ifs <;> rfl
    · intro h1; simp [h1]
    · intro h1; simp [h1]

/-- C17: `si7021_reset` issues exactly one call, the 1-byte write of `{0xFE}` to `0x40`
(no read), and returns `SI7021_OK` if the bus reports 1 byte written and
`SI7021_ERR_WRITE_FAIL` otherwise; called twice in sequence with the same handle on a
bus that accepts both writes, it issues two identical writes and returns `SI7021_OK`
both times. -/
theorem si7021_reset_spec (T : Transport) (tr : Trace) (sensor : si7021_t) :
    (si7021_reset T tr sensor).trace = tr ++ [BusCall.write sensor.i2c 0x40 [0xFE] 1 false] ∧
    (T.write (tr ++ [BusCall.write sensor.i2c 0x40 [0xFE] 1 false]) = 1 →
      (si7021_reset T tr sensor).err = SI7021_OK) ∧
    (T.write (tr ++ [BusCall.write sensor.i2c 0x40 [0xFE] 1 false]) ≠ 1 →
      (si7021_reset T tr sensor).err = SI7021_ERR_WRITE_FAIL) ∧
    (T.write (tr ++ [BusCall.write sensor.i2c 0x40 [0xFE] 1 false]) = 1 →
      T.write (tr ++ [BusCall.write sensor.i2c 0x40 [0xFE] 1 false,
                      BusCall.write sensor.i2c 0x40 [0xFE] 1 false]) = 1 →
      (si7021_reset T tr sensor).err = SI7021_OK ∧
      (si7021_reset T (si7021_reset T tr sensor).trace sensor).err = SI7021_OK ∧
      (si7021_reset T (si7021_reset T tr sensor).trace sensor).trace
        = tr ++ [BusCall.write sensor.i2c 0x40 [0xFE] 1 false,
                 BusCall.write sensor.i2c 0x40 [0xFE] 1 false]) := by
  have htrace : ∀ t : Trace, (si7021_reset T t sensor).trace
      = t ++ [BusCall.write sensor.i2c 0x40 [0xFE] 1 false] := by
    intro t
    unfold si7021_reset i2c_write_blocking
    simp only [SI7021_ADDR, SI7021_RESET]
    split_ifs <;> rfl
  have hok : ∀ t : Trace, T.write (t ++ [BusCall.write sensor.i2c 0x40 [0xFE] 1 false]) = 1 →
      (si7021_reset T t sensor).err = SI7021_OK := by
    intro t h
    unfold si7021_reset i2c_write_blocking
    simp [SI7021_ADDR, SI7021_RESET, h]
  refine ⟨htrace tr, hok tr, ?_, ?_⟩
  · intro h
    unfold si7021_reset i2c_write_blocking
    simp [SI7021_ADDR, SI7021_RESET, h]
  · intro h1 h2
    refine ⟨hok tr h1, ?_, ?_⟩
    · apply hok
      rw [htrace tr]
      simpa using h2
    · rw [htrace, htrace]
      simp

/-- C20 (code defect): the liveness read of `si7021_init` is issued on the global
`i2c0`, not on the controller the handle refers to: for a handle holding `i2c1` the only
call is a read on `i2c0`. -/
theorem si7021_init_reads_i2c0 (T : Transport) (tr : Trace) (hold_master : Bool) :
    (si7021_init T tr { i2c := some i2c_inst_t.i2c1, hold_master := hold_master }).trace
      = tr ++ [BusCall.read (some i2c_inst_t.i2c0) 0x40 1 false] ∧
    BusCall.read (some i2c_inst_t.i2c0) 0x40 1 false
      ≠ BusCall.read (some i2c_inst_t.i2c1) 0x40 1 false := by
  refine ⟨?_, by decide⟩
  unfold si7021_init i2c_read_blocking
  simp only [SI7021_ADDR]
  split_ifs <;> simp_all

/-! ## Failure classification and array bounds of the transaction executor -/

/-- C18: `write_then_read` classifies bus failures in order and without retry.  If the
opcode write reports a count other than 1, it returns `SI7021_ERR_WRITE_FAIL` having
issued that write only; otherwise, if the 3-byte read reports a count other than 3, it
returns `SI7021_ERR_READ_FAIL` having issued the write and one read.  In both cases the
caller's result is unmodified, and no run issues more than one write and one read. -/
theorem write_then_read_failures (T : Transport) (tr : Trace) (sensor : si7021_t)
    (command result : Nat) :
    (T.write (tr ++ [BusCall.write sensor.i2c 0x40 [command] 1 false]) ≠ 1 →
      (write_then_read T tr sensor command result).err = SI7021_ERR_WRITE_FAIL ∧
      (write_then_read T tr sensor command result).out = result ∧
      (write_then_read T tr sensor command result).trace
        = tr ++ [BusCall.write sensor.i2c 0x40 [command] 1 false]) ∧
    (T.write (tr ++ [BusCall.write sensor.i2c 0x40 [command] 1 false]) = 1 →
      (T.read (tr ++ [BusCall.write sensor.i2c 0x40 [command] 1 false,
                      BusCall.read sensor.i2c 0x40 3 false])).1 ≠ 3 →
      (write_then_read T tr sensor command result).err = SI7021_ERR_READ_FAIL ∧
      (write_then_read T tr sensor command result).out = result ∧
      (write_then_read T tr sensor command result).trace
        = tr ++ [BusCall.write sensor.i2c 0x40 [command] 1 false,
                 BusCall.read sensor.i2c 0x40 3 false]) ∧
    ((write_then_read T tr sensor command result).trace
        = tr ++ [BusCall.write sensor.i2c 0x40 [command] 1 false] ∨
     (write_then_read T tr sensor command result).trace
        = tr ++ [BusCall.write sensor.i2c 0x40 [command] 1 false,
                 BusCall.read sensor.i2c 0x40 3 false]) := by
  refine ⟨?_, ?_, write_then_read_trace T tr sensor command result⟩
  · intro hw
    unfold write_then_read i2c_read_blocking i2c_write_blocking
    simp [SI7021_ADDR, hw]
  · intro hw hr
    unfold write_then_read i2c_read_blocking i2c_write_blocking
    simp [SI7021_ADDR, hw, hr]

/-- C19 (code defect): the receive buffer of `write_then_read` is overrun.  The array is
declared with 2 cells; the 3 bytes requested from the bus do not fit, the checked
indexing takes its out-of-range branch at index 2, and index 2 is the cell the function
hands to `verify_crc` as the checksum whenever both transfers are complete. -/
theorem write_then_read_buffer_overrun (T : Transport) (tr : Trace) (sensor : si7021_t)
    (command result : Nat) :
    (write_then_read_buffer T tr sensor command).size = 2 ∧
    (write_then_read_buffer T tr sensor command).holds 3 = false ∧
    (write_then_read_buffer T tr sensor command).index 2 = none ∧
    (T.write (tr ++ [BusCall.write sensor.i2c 0x40 [command] 1 false]) = 1 →
      (T.read (tr ++ [BusCall.write sensor.i2c 0x40 [command] 1 false,
                      BusCall.read sensor.i2c 0x40 3 false])).1 = 3 →
      (write_then_read T tr sensor command result).trace
        = tr ++ [BusCall.write sensor.i2c 0x40 [command] 1 false,
                 BusCall.read sensor.i2c 0x40 3 false] ∧
      ((write_then_read T tr sensor command result).err = SI7021_OK ↔
        verify_crc (write_then_read_buffer T tr sensor command).cells
          ((write_then_read_buffer T tr sensor command).cell 2) 2 = true)) := by
  refine ⟨rfl, rfl, rfl, ?_⟩
  intro hw hr
  unfold write_then_read write_then_read_buffer i2c_read_blocking i2c_write_blocking
  simp only [SI7021_ADDR, List.append_assoc, List.singleton_append, List.nil_append,
    List.cons_append, hw, hr, ne_eq, not_true_eq_false, if_false]
  split_ifs with hv <;> simp_all

/-! ## Identity API -/

/-- C13: whenever `si7021_get_serial_num` returns `SI7021_OK` after stage A (command
`{0xFA, 0x0F}`) delivered the 8 bytes `a0 .. a7` and stage B (command `{0xFC, 0xC9}`) the
6 bytes `b0 .. b5`, the caller's 8-byte serial number is
`[a0, a2, a4, a6, b0, b1, b3, b4]`. -/
theorem si7021_get_serial_num_value (T : Transport) (tr : Trace) (sensor : si7021_t)
    (serial_num : si7021_serial_num_t) (a0 a1 a2 a3 a4 a5 a6 a7 b0 b1 b2 b3 b4 b5 : Nat)
    (hlen : serial_num.serial_buffer.length = 8)
    (ha : a0 < 256 ∧ a2 < 256 ∧ a4 < 256 ∧ a6 < 256)
    (hb : b0 < 256 ∧ b1 < 256 ∧ b3 < 256 ∧ b4 < 256)
    (hA : (T.read (tr ++ [BusCall.write sensor.i2c 0x40 [0xFA, 0x0F] 2 false,
        BusCall.read sensor.i2c 0x40 8 false])).2 = [a0, a1, a2, a3, a4, a5, a6, a7])
    (hB : (T.read (tr ++ [BusCall.write sensor.i2c 0x40 [0xFA, 0x0F] 2 false,
        BusCall.read sensor.i2c 0x40 8 false,
        BusCall.write sensor.i2c 0x40 [0xFC, 0xC9] 2 false,
        BusCall.read sensor.i2c 0x40 6 false])).2 = [b0, b1, b2, b3, b4, b5])
    (hok : (si7021_get_serial_num T tr sensor serial_num).err = SI7021_OK) :
    (si7021_get_serial_num T tr sensor serial_num).out.serial_buffer
      = [a0, a2, a4, a6, b0, b1, b3, b4] := by
  obtain ⟨ha0, ha2, ha4, ha6⟩ := ha
  obtain ⟨hb0, hb1, hb3, hb4⟩ := hb
  rcases serial_num with ⟨l⟩
  rcases l with _ | ⟨s0, _ | ⟨s1, _ | ⟨s2, _ | ⟨s3, _ | ⟨s4, _ | ⟨s5, _ | ⟨s6, _ | ⟨s7, l⟩⟩⟩⟩⟩⟩⟩⟩ <;>
    simp at hlen
  subst hlen
  unfold si7021_get_serial_num i2c_read_blocking i2c_write_blocking at hok ⊢
  simp only [SI7021_ADDR, List.append_assoc, List.singleton_append, List.nil_append,
    List.cons_append] at hok ⊢
  split_ifs at hok ⊢
  simp only [hA, hB, buffer.fill, buffer.cell]
  simp [Nat.mod_eq_of_lt, ha0, ha2, ha4, ha6, hb0, hb1, hb3, hb4]

/-- Witness of C13: the exchange `{01, AA, 02, BB, 03, CC, 04, FE}`,
`{05, 06, AA, 07, 08, 27}` yields the serial number `[01, 02, 03, 04, 05, 06, 07, 08]`. -/
theorem si7021_get_serial_num_value_witness :
    (si7021_get_serial_num
        (scripted_bus [2, 2]
          [(8, [0x01, 0xAA, 0x02, 0xBB, 0x03, 0xCC, 0x04, 0xFE]),
           (6, [0x05, 0x06, 0xAA, 0x07, 0x08, 0x27])])
        [] { i2c := some i2c_inst_t.i2c0, hold_master := true }
        { serial_buffer := [0, 0, 0, 0, 0, 0, 0, 0] }).err = SI7021_OK ∧
    (si7021_get_serial_num
        (scripted_bus [2, 2]
          [(8, [0x01, 0xAA, 0x02, 0xBB, 0x03, 0xCC, 0x04, 0xFE]),
           (6, [0x05, 0x06, 0xAA, 0x07, 0x08, 0x27])])
        [] { i2c := some i2c_inst_t.i2c0, hold_master := true }
        { serial_buffer := [0, 0, 0, 0, 0, 0, 0, 0] }).out.serial_buffer
      = [0x01, 0x02, 0x03, 0x04, 0x05, 0x06, 0x07, 0x08] :=
  ⟨by decide,
   si7021_get_serial_num_value
      (scripted_bus [2, 2]
        [(8, [0x01, 0xAA, 0x02, 0xBB, 0x03, 0xCC, 0x04, 0xFE]),
         (6, [0x05, 0x06, 0xAA, 0x07, 0x08, 0x27])])
      [] { i2c := some i2c_inst_t.i2c0, hold_master := true }
      { serial_buffer := [0, 0, 0, 0, 0, 0, 0, 0] }
      0x01 0xAA 0x02 0xBB 0x03 0xCC 0x04 0xFE 0x05 0x06 0xAA 0x07 0x08 0x27
      (by decide) (by decide) (by decide) (by decide) (by decide) (by decide)⟩

/-- C14 (as stated, refuted): stage A succeeds, the command write of stage B fails,
`si7021_get_serial_num` returns `SI7021_ERR_WRITE_FAIL`, and the first four bytes of the
caller's serial number have been overwritten with the stage A bytes. -/
theorem si7021_get_serial_num_partial :
    (si7021_get_serial_num
        (scripted_bus [2, 0] [(8, [0x01, 0xAA, 0x02, 0xBB, 0x03, 0xCC, 0x04, 0xFE])])
        [] { i2c := some i2c_inst_t.i2c0, hold_master := true }
        { serial_buffer := [0x11, 0x11, 0x11, 0x11, 0x11, 0x11, 0x11, 0x11] }).err
      = SI7021_ERR_WRITE_FAIL ∧
    (si7021_get_serial_num
        (scripted_bus [2, 0] [(8, [0x01, 0xAA, 0x02, 0xBB, 0x03, 0xCC, 0x04, 0xFE])])
        [] { i2c := some i2c_inst_t.i2c0, hold_master := true }
        { serial_buffer := [0x11, 0x11, 0x11, 0x11, 0x11, 0x11, 0x11, 0x11] }).out.serial_buffer
      = [0x01, 0x02, 0x03, 0x04, 0x11, 0x11, 0x11, 0x11] ∧
    (si7021_get_serial_num
        (scripted_bus [2, 0] [(8, [0x01, 0xAA, 0x02, 0xBB, 0x03, 0xCC, 0x04, 0xFE])])
        [] { i2c := some i2c_inst_t.i2c0, hold_master := true }
        { serial_buffer := [0x11, 0x11, 0x11, 0x11, 0x11, 0x11, 0x11, 0x11] }).out
      ≠ { serial_buffer := [0x11, 0x11, 0x11, 0x11, 0x11, 0x11, 0x11, 0x11] } := by
  decide

/-- C14 (amended): if `si7021_get_serial_num` fails in the write or the read of stage A,
no byte of the caller's serial number has been modified.  Once stage A has delivered its
8 bytes `a0 .. a7`, the serial bytes 0 to 3 are `a0, a2, a4, a6` whatever the function
returns afterwards.  On any error other than the checksum failure of stage B (the one
raised after all four bus calls), the serial bytes 4 to 7 are unmodified. -/
theorem si7021_get_serial_num_error_frame (T : Transport) (tr : Trace) (sensor : si7021_t)
    (serial_num : si7021_serial_num_t) (a0 a1 a2 a3 a4 a5 a6 a7 : Nat) :
    (T.write (tr ++ [BusCall.write sensor.i2c 0x40 [0xFA, 0x0F] 2 false]) ≠ 2 →
      (si7021_get_serial_num T tr sensor serial_num).err = SI7021_ERR_WRITE_FAIL ∧
      (si7021_get_serial_num T tr sensor serial_num).out = serial_num) ∧
    (T.write (tr ++ [BusCall.write sensor.i2c 0x40 [0xFA, 0x0F] 2 false]) = 2 →
      (T.read (tr ++ [BusCall.write sensor.i2c 0x40 [0xFA, 0x0F] 2 false,
                      BusCall.read sensor.i2c 0x40 8 false])).1 ≠ 8 →
      (si7021_get_serial_num T tr sensor serial_num).err = SI7021_ERR_READ_FAIL ∧
      (si7021_get_serial_num T tr sensor serial_num).out = serial_num) ∧
    (serial_num.serial_buffer.length = 8 →
      a0 < 256 ∧ a2 < 256 ∧ a4 < 256 ∧ a6 < 256 →
      T.write (tr ++ [BusCall.write sensor.i2c 0x40 [0xFA, 0x0F] 2 false]) = 2 →
      T.read (tr ++ [BusCall.write sensor.i2c 0x40 [0xFA, 0x0F] 2 false,
                     BusCall.read sensor.i2c 0x40 8 false])
        = (8, [a0, a1, a2, a3, a4, a5, a6, a7]) →
      (si7021_get_serial_num T tr sensor serial_num).out.serial_buffer.take 4
        = [a0, a2, a4, a6]) ∧
    ((si7021_get_serial_num T tr sensor serial_num).err ≠ SI7021_OK →
      ¬ ((si7021_get_serial_num T tr sensor serial_num).err = SI7021_ERR_CRC_FAIL ∧
          (si7021_get_serial_num T tr sensor serial_num).trace.length = tr.length + 4) →
      (si7021_get_serial_num T tr sensor serial_num).out.serial_buffer.drop 4
        = serial_num.serial_buffer.drop 4) := by
  refine ⟨?_, ?_, ?_, ?_⟩
  · intro hw
    unfold si7021_get_serial_num i2c_read_blocking i2c_write_blocking
    simp [SI7021_ADDR, hw]
  · intro hw hr
    unfold si7021_get_serial_num i2c_read_blocking i2c_write_blocking
    simp [SI7021_ADDR, hw, hr]
  · intro hlen ha hw hA
    obtain ⟨ha0, ha2, ha4, ha6⟩ := ha
    rcases serial_num with ⟨l⟩
    rcases l with _ | ⟨s0, _ | ⟨s1, _ | ⟨s2, _ | ⟨s3, _ | ⟨s4, _ | ⟨s5, _ | ⟨s6, _ | ⟨s7, l⟩⟩⟩⟩⟩⟩⟩⟩ <;>
      simp at hlen
    subst hlen
    unfold si7021_get_serial_num i2c_read_blocking i2c_write_blocking
    simp only [SI7021_ADDR, List.append_assoc, List.singleton_append, List.nil_append,
      List.cons_append, hw, hA, buffer.fill, buffer.cell, ne_eq, not_true_eq_false, if_false]
    split_ifs <;> simp [Nat.mod_eq_of_lt, ha0, ha2, ha4, ha6]
  · intro herr hnot
    unfold si7021_get_serial_num i2c_read_blocking i2c_write_blocking at herr hnot ⊢
    simp only [] at herr hnot ⊢
    split_ifs at herr hnot ⊢ <;> simp_all [List.drop_set]

/-- Witness of C14 (amended): stage A is read, the checksum of stage B fails, and the
first four serial bytes are the stage A bytes `01, 02, 03, 04`. -/
theorem si7021_get_serial_num_error_frame_witness :
    (si7021_get_serial_num
        (scripted_bus [2, 2]
          [(8, [0x01, 0xAA, 0x02, 0xBB, 0x03, 0xCC, 0x04, 0xFE]),
           (6, [0x05, 0x06, 0xAA, 0x07, 0x08, 0x00])])
        [] { i2c := some i2c_inst_t.i2c0, hold_master := true }
        { serial_buffer := [0x11, 0x11, 0x11, 0x11, 0x11, 0x11, 0x11, 0x11] }).err
      = SI7021_ERR_CRC_FAIL ∧
    (si7021_get_serial_num
        (scripted_bus [2, 2]
          [(8, [0x01, 0xAA, 0x02, 0xBB, 0x03, 0xCC, 0x04, 0xFE]),
           (6, [0x05, 0x06, 0xAA, 0x07, 0x08, 0x00])])
        [] { i2c := some i2c_inst_t.i2c0, hold_master := true }
        { serial_buffer := [0x11, 0x11, 0x11, 0x11, 0x11, 0x11, 0x11, 0x11] }).out.serial_buffer.take 4
      = [0x01, 0x02, 0x03, 0x04] :=
  ⟨by decide,
   (si7021_get_serial_num_error_frame
      (scripted_bus [2, 2]
        [(8, [0x01, 0xAA, 0x02, 0xBB, 0x03, 0xCC, 0x04, 0xFE]),
         (6, [0x05, 0x06, 0xAA, 0x07, 0x08, 0x00])])
      [] { i2c := some i2c_inst_t.i2c0, hold_master := true }
      { serial_buffer := [0x11, 0x11, 0x11, 0x11, 0x11, 0x11, 0x11, 0x11] }
      0x01 0xAA 0x02 0xBB 0x03 0xCC 0x04 0xFE).2.2.1
      (by decide) (by decide) (by decide) (by decide)⟩

theorem sprintf_02X_byte : ∀ v < 256,
    sprintf_02X v = [upper_hex_digit (v / 16), upper_hex_digit (v % 16), Char.ofNat 0] := by
  decide

theorem upper_hex_digit_mem : ∀ d < 16, upper_hex_digit d ∈ upper_hex_digits := by
  decide

/-- The characters `si7021_print_serial_num` leaves at the offsets `2 * i` and `2 * i + 1`. -/
theorem print_serial_num_chars (serial_num : si7021_serial_num_t) (mem : Nat → Char)
    (hbytes : ∀ i < 8, serial_num.serial_buffer.getD i 0 < 256) (i : Nat) (hi : i < 8) :
    (List.range 8).foldl
        (fun m i => store_chars m (i * 2) (sprintf_02X (serial_num.serial_buffer.getD i 0))) mem
        (2 * i) = upper_hex_digit (serial_num.serial_buffer.getD i 0 / 16) ∧
    (List.range 8).foldl
        (fun m i => store_chars m (i * 2) (sprintf_02X (serial_num.serial_buffer.getD i 0))) mem
        (2 * i + 1) = upper_hex_digit (serial_num.serial_buffer.getD i 0 % 16) := by
  have hr : List.range 8 = [0, 1, 2, 3, 4, 5, 6, 7] := by decide
  rw [hr]
  simp only [List.foldl]
  rw [sprintf_02X_byte _ (hbytes 0 (by omega)), sprintf_02X_byte _ (hbytes 1 (by omega)),
    sprintf_02X_byte _ (hbytes 2 (by omega)), sprintf_02X_byte _ (hbytes 3 (by omega)),
    sprintf_02X_byte _ (hbytes 4 (by omega)), sprintf_02X_byte _ (hbytes 5 (by omega)),
    sprintf_02X_byte _ (hbytes 6 (by omega)), sprintf_02X_byte _ (hbytes 7 (by omega))]
  interval_cases i <;> simp [store_chars]

/-- C15: for every 8-byte serial number and every present buffer,
`si7021_print_serial_num` returns `SI7021_OK` and leaves, at the offsets `2 * i` and
`2 * i + 1` of the buffer, the uppercase hexadecimal digits of the high and the low
nibble of byte `i` (`i` from 0 to 7), so that the first 16 characters are digits of
`0-9A-F`; it returns an error (`SI7021_ERR_READ_FAIL`), with nothing written, exactly
when the buffer pointer is `NULL`. -/
theorem si7021_print_serial_num_spec (serial_num : si7021_serial_num_t)
    (hbytes : ∀ i < 8, serial_num.serial_buffer.getD i 0 < 256) :
    (∀ mem : Nat → Char,
      (si7021_print_serial_num serial_num (some mem)).1 = SI7021_OK ∧
      ∃ out : Nat → Char,
        (si7021_print_serial_num serial_num (some mem)).2 = some out ∧
        (∀ i < 8,
          out (2 * i) = upper_hex_digit (serial_num.serial_buffer.getD i 0 / 16) ∧
          out (2 * i + 1) = upper_hex_digit (serial_num.serial_buffer.getD i 0 % 16)) ∧
        ∀ k < 16, out k ∈ upper_hex_digits) ∧
    si7021_print_serial_num serial_num none = (SI7021_ERR_READ_FAIL, none) ∧
    (∀ buffer : Option (Nat → Char),
      (si7021_print_serial_num serial_num buffer).1 ≠ SI7021_OK ↔ buffer = none) := by
  refine ⟨fun mem => ⟨rfl, _, rfl, fun i hi => print_serial_num_chars serial_num mem hbytes i hi,
    fun k hk => ?_⟩, rfl, fun buffer => ?_⟩
  · have hdiv : k / 2 < 8 := by omega
    obtain ⟨h0, h1⟩ := print_serial_num_chars serial_num mem hbytes (k / 2) hdiv
    have hnib : ∀ v, v < 256 → v / 16 < 16 ∧ v % 16 < 16 := fun v hv => by omega
    obtain ⟨hhi, hlo⟩ := hnib _ (hbytes (k / 2) hdiv)
    rcases Nat.mod_two_eq_zero_or_one k with hk2 | hk2
    · have hk' : 2 * (k / 2) = k := by omega
      rw [hk'] at h0
      rw [h0]
      exact upper_hex_digit_mem _ hhi
    · have hk' : 2 * (k / 2) + 1 = k := by omega
      rw [hk'] at h1
      rw [h1]
      exact upper_hex_digit_mem _ hlo
  · cases buffer with
    | none => simp [si7021_print_serial_num]
    | some mem => simp [si7021_print_serial_num]

/-- Witness of C15: the serial number `01 02 AB 04 05 06 07 F8` is rendered with `A`,
`B` at the offsets 4, 5 and `F`, `8` at the offsets 14, 15. -/
theorem si7021_print_serial_num_spec_witness :
    (∀ i < 8, ([0x01, 0x02, 0xAB, 0x04, 0x05, 0x06, 0x07, 0xF8] : List Nat).getD i 0 < 256) ∧
    (si7021_print_serial_num
        { serial_buffer := [0x01, 0x02, 0xAB, 0x04, 0x05, 0x06, 0x07, 0xF8] }
        (some (fun _ => Char.ofNat 0))).1 = SI7021_OK ∧
    ∃ out : Nat → Char,
      (si7021_print_serial_num
          { serial_buffer := [0x01, 0x02, 0xAB, 0x04, 0x05, 0x06, 0x07, 0xF8] }
          (some (fun _ => Char.ofNat 0))).2 = some out ∧
      (∀ i < 8,
        out (2 * i) = upper_hex_digit
          (([0x01, 0x02, 0xAB, 0x04, 0x05, 0x06, 0x07, 0xF8] : List Nat).getD i 0 / 16) ∧
        out (2 * i + 1) = upper_hex_digit
          (([0x01, 0x02, 0xAB, 0x04, 0x05, 0x06, 0x07, 0xF8] : List Nat).getD i 0 % 16)) ∧
      ∀ k < 16, out k ∈ upper_hex_digits :=
  ⟨by decide,
   (si7021_print_serial_num_spec
      { serial_buffer := [0x01, 0x02, 0xAB, 0x04, 0x05, 0x06, 0x07, 0xF8] }
      (by decide)).1 (fun _ => Char.ofNat 0)⟩

end Si7021
